import Mathlib

/-!
Shallow embedding of the MENRO reporting scripts (`dashboard.py`,
`pages/Reports Dashboard.py` and the entry page) and proofs of the
spec-level properties about them: category canonicalization, the
load/aggregation pipeline, the KPI calculations and the entry
collector's row construction.

Python strings are modelled as `List Char` (`PyStr`); the floats on the
KPI path are modelled as `ℚ` (all quantities are integers, so the
arithmetic there is exact); fallible parsing returns `Option`.
-/

set_option maxHeartbeats 1000000

namespace MENRO

/-- Python strings, modelled as lists of characters. -/
abbrev PyStr := List Char

/-- The characters Python's argumentless `str.split()` treats as whitespace. -/
def isWsChar (c : Char) : Bool :=
  decide (c = ' ') || decide (c = '\t') || decide (c = '\n') ||
  decide (c = '\r') || decide (c = '\x0b') || decide (c = '\x0c')

/-- Accumulator-based splitter behind `splitWs`: scans the input keeping the
current (reversed) token in `acc`; whitespace characters end the current
token and are discarded. -/
def splitWsAux : List Char → List Char → List (List Char)
  | [], acc => if acc = [] then [] else [acc.reverse]
  | c :: cs, acc =>
    if isWsChar c then
      if acc = [] then splitWsAux cs [] else acc.reverse :: splitWsAux cs []
    else splitWsAux cs (c :: acc)

/-- Python `s.split()`: split on whitespace runs, no empty tokens. -/
def splitWs (l : List Char) : List (List Char) := splitWsAux l []

/-- Python `" ".join(tokens)`. -/
def joinSpace : List (List Char) → List Char
  | [] => []
  | [t] => t
  | t :: t' :: ts => t ++ ' ' :: joinSpace (t' :: ts)

/-- `" ".join(s.strip().split())` from `canonicalize_category`
(`pages/Reports Dashboard.py`, line 47): trim and collapse internal
whitespace runs to single spaces. -/
def normalizeWs (s : PyStr) : PyStr := joinSpace (splitWs s)

/-- Python `s.startswith(pre)`, on `List Char`: `startsWithP pre s`. -/
def startsWithP : PyStr → PyStr → Bool
  | [], _ => true
  | _ :: _, [] => false
  | p :: ps, c :: cs => decide (p = c) && startsWithP ps cs

/-- Canonical label `CANON_I` (`pages/Reports Dashboard.py`, line 52). -/
def CANON_I : PyStr := ("I. Issuance of Citation Tickets").toList

/-- Canonical label `CANON_II` (line 50). -/
def CANON_II : PyStr :=
  ("II. Surveillance, Investigation, Monitoring, Documentation, and Inspection").toList

/-- Canonical label `CANON_III` (line 51). -/
def CANON_III : PyStr :=
  ("III. Information, Education, and Communication (IEC) Campaign").toList

/-- Canonical label `CANON_IV` (line 53). -/
def CANON_IV : PyStr := ("IV. Other Tasks").toList

/-- Match target of the first branch of `canonicalize_category` (line 56). -/
def PRE_II : PyStr := ("II. Surveillance").toList

/-- Match target of the second branch (line 58). -/
def PRE_III : PyStr := ("III. Information, Education").toList

/-- Match target of the third branch (line 60). -/
def PRE_I : PyStr := ("I. Issuance of Citation Tickets").toList

/-- Match target of the fourth branch (line 62). -/
def PRE_IV : PyStr := ("IV. Other").toList

/-- `canonicalize_category` (`pages/Reports Dashboard.py`, lines 43-66):
trim and collapse whitespace, then the first match among the four known
official labels wins; with no match the (normalized) string passes
through. -/
def canonicalize_category (s : PyStr) : PyStr :=
  let t := normalizeWs s
  if startsWithP PRE_II t = true then CANON_II
  else if startsWithP PRE_III t = true then CANON_III
  else if startsWithP PRE_I t = true then CANON_I
  else if startsWithP PRE_IV t = true then CANON_IV
  else t

/-- `CATEGORY_SHORT` (lines 69-74): short legend labels. -/
def CATEGORY_SHORT : List (PyStr × PyStr) :=
  [(CANON_I, ("I. Citation Tickets").toList),
   (CANON_II, ("II. Surveillance & Inspection").toList),
   (CANON_III, ("III. IEC Campaign").toList),
   (CANON_IV, ("IV. Other Tasks").toList)]

/-- `CATEGORY_SHORT.get(x, x)` (line 105). -/
def category_short (s : PyStr) : PyStr :=
  match CATEGORY_SHORT.lookup s with
  | some t => t
  | none => s

/-!  ## Cell values and the Quantity coercion  -/

/-- A raw spreadsheet cell as returned by the record store: either already
numeric or free text. -/
inductive Cell where
  | num (q : ℚ)
  | text (s : PyStr)
deriving DecidableEq

/-- `c` is a decimal digit. -/
def isDigitCh (c : Char) : Bool := decide ('0' ≤ c) && decide (c ≤ '9')

/-- Numeric value of a digit character. -/
def digitVal (c : Char) : ℕ := c.toNat - 48

/-- Parse a run of decimal digits, most significant first, extending `acc`;
any non-digit character fails the whole parse. -/
def parseNatAux : List Char → ℕ → Option ℕ
  | [], acc => some acc
  | c :: cs, acc => if isDigitCh c then parseNatAux cs (acc * 10 + digitVal c) else none

/-- Parse a nonempty all-digit string. -/
def parseNatOpt (l : List Char) : Option ℕ :=
  if l = [] then none else parseNatAux l 0

/-- Model of `pd.to_numeric(..., errors="coerce")` (an external library
call) on the cell values this store holds: numeric cells pass through,
text cells are parsed as optionally signed decimal integer literals, and
anything else coerces to the null marker `none`. -/
def pyToNumeric : Cell → Option ℚ
  | Cell.num q => some q
  | Cell.text [] => none
  | Cell.text (c :: rest) =>
    if c = '-' then (parseNatOpt rest).map (fun n => -(n : ℚ))
    else if c = '+' then (parseNatOpt rest).map (fun n => (n : ℚ))
    else (parseNatOpt (c :: rest)).map (fun n => (n : ℚ))

/-- Python's `int()` / numpy `astype(int)` on a float: truncation toward
zero. -/
def truncZ (q : ℚ) : ℤ :=
  if 0 ≤ q.num then ((q.num.toNat / q.den : ℕ) : ℤ) else -((q.num.natAbs / q.den : ℕ) : ℤ)

/-- `pd.to_numeric(df["Quantity"], errors="coerce").fillna(0).astype(int)`
(`pages/Reports Dashboard.py` lines 96-97, `dashboard.py` lines 52-53). -/
def coerce_quantity (c : Cell) : ℤ :=
  match pyToNumeric c with
  | none => 0
  | some q => truncZ q

/-- The decimal digit character for `d < 10`. -/
def digitChar (d : ℕ) : Char := Char.ofNat (48 + d)

/-- Decimal representation of a natural number (used to state that numeric
strings parse back to their value). -/
def natRepr (n : ℕ) : List Char :=
  if _h : n < 10 then [digitChar n]
  else natRepr (n / 10) ++ [digitChar (n % 10)]
termination_by n
decreasing_by omega

/-!  ## Dates  -/

/-- A calendar date (no time component). -/
structure SDate where
  y : ℤ
  m : ℕ
  d : ℕ
deriving DecidableEq

/-- Date comparison `a ≤ b`, lexicographic on (year, month, day); this is
the order pandas timestamps compare in. -/
def dle (a b : SDate) : Bool :=
  decide (a.y < b.y) || (decide (a.y = b.y) &&
    (decide (a.m < b.m) || (decide (a.m = b.m) && decide (a.d ≤ b.d))))

/-- Split a character list at every dash. -/
def splitDashAux : List Char → List Char → List (List Char)
  | [], acc => [acc.reverse]
  | c :: cs, acc =>
    if c = '-' then acc.reverse :: splitDashAux cs [] else splitDashAux cs (c :: acc)

/-- Model of `pd.to_datetime(..., errors="coerce")` (an external library
call) on the date cells this store holds: the entry collector writes
`strftime("%Y-%m-%d")` strings, so ISO `YYYY-MM-DD` text parses and
anything else coerces to the null marker `none` (pandas `NaT`). -/
def parseDate (c : Cell) : Option SDate :=
  match c with
  | Cell.num _ => none
  | Cell.text s =>
    match splitDashAux s [] with
    | [ys, ms, ds] =>
      match parseNatOpt ys, parseNatOpt ms, parseNatOpt ds with
      | some y, some m, some d =>
        if 1 ≤ m ∧ m ≤ 12 ∧ 1 ≤ d ∧ d ≤ 31 then some ⟨(y : ℤ), m, d⟩ else none
      | _, _, _ => none
    | _ => none

/-!  ## Rows, frames and the load step  -/

/-- One stored record, keyed by the fixed header contract.  The `Date` and
`Quantity` columns are the ones the loaders coerce, so they are kept as
raw cells; the remaining columns pass through untouched as text. -/
structure RawRec where
  date : Cell
  enforcer : String
  category : PyStr
  activity : String
  quantity : Cell
  remarks : String
deriving DecidableEq

/-- A row of the unified table built by `load_all`
(`pages/Reports Dashboard.py`): parsed date, derived `Month`, coerced
quantity, canonicalized category and its short legend label. -/
structure RRow where
  pdate : Option SDate
  month : Option (ℤ × ℕ)
  enforcer : String
  category : PyStr
  categoryShort : PyStr
  activity : String
  quantity : ℤ
  remarks : String
deriving DecidableEq

/-- `EXPECTED_HEADERS` (`pages/Reports Dashboard.py` line 15). -/
def EXPECTED_HEADERS : List String :=
  ["Date", "Enforcer", "Category", "Activity", "Quantity", "Remarks"]

/-- `ENFORCERS` (line 14): the fixed five-person roster. -/
def ENFORCERS : List String :=
  ["Enforcer 1", "Enforcer 2", "Enforcer 3", "Enforcer 4", "Enforcer 5"]

/-- The per-row effect of `load_all`'s transform block (lines 96-105):
date parsing and `Month` derivation, quantity coercion, category
canonicalization and the short label. -/
def loadRec (r : RawRec) : RRow :=
  let dt := parseDate r.date
  let cat := canonicalize_category r.category
  { pdate := dt
    month := dt.map (fun d => (d.y, d.m))
    enforcer := r.enforcer
    category := cat
    categoryShort := category_short cat
    activity := r.activity
    quantity := coerce_quantity r.quantity
    remarks := r.remarks }

/-- A loaded data frame: its column list plus its rows. -/
structure Frame where
  cols : List String
  rows : List RRow
deriving DecidableEq

/-- `load_all` (`pages/Reports Dashboard.py` lines 79-107).  Worksheets
with no records contribute no frame (lines 87-89); with no frames at all
the table is `pd.DataFrame(columns=EXPECTED_HEADERS)` (line 92).  The
`Quantity`, `Date` and `Category` columns are present in either branch,
so the transform block runs in both and appends the derived `Month`
(line 100) and `CategoryShort` (line 105) columns. -/
def load_all (tables : List (List RawRec)) : Frame :=
  let frames := tables.filter (fun t => decide (t ≠ []))
  if frames = [] then
    { cols := EXPECTED_HEADERS ++ ["Month", "CategoryShort"], rows := [] }
  else
    { cols := EXPECTED_HEADERS ++ ["Month", "CategoryShort"],
      rows := frames.flatten.map loadRec }

/-- A row of the unified table built by `read_all_enforcer_data`
(`dashboard.py`): that loader derives `Month` and coerces `Quantity`, but
does not canonicalize categories. -/
structure DRow where
  pdate : Option SDate
  month : Option (ℤ × ℕ)
  enforcer : String
  category : PyStr
  activity : String
  quantity : ℤ
  remarks : String
deriving DecidableEq

/-- Per-row effect of `read_all_enforcer_data`'s transform block
(`dashboard.py` lines 52-55): no canonicalization. -/
def load_rec_dash (r : RawRec) : DRow :=
  let dt := parseDate r.date
  { pdate := dt
    month := dt.map (fun d => (d.y, d.m))
    enforcer := r.enforcer
    category := r.category
    activity := r.activity
    quantity := coerce_quantity r.quantity
    remarks := r.remarks }

/-- A frame of `DRow`s. -/
structure DFrame where
  cols : List String
  rows : List DRow
deriving DecidableEq

/-- `REPORT_TABS` (`dashboard.py` line 15). -/
def REPORT_TABS : List String := ["Daily Report", "Monthly Report"]

/-- The worksheet-skipping rule of `read_all_enforcer_data`
(`dashboard.py` line 44). -/
def skip_tab (title : String) : Bool :=
  decide (title ∈ REPORT_TABS) ||
    title.startsWith ("Daily - ") || title.startsWith ("Monthly - ")

/-- `read_all_enforcer_data` (`dashboard.py` lines 40-56): skip report
tabs, gather nonempty worksheets, and with none at all return
`pd.DataFrame(columns=[...])` immediately (line 50) - before the `Month`
column is derived, so that early return has exactly the six columns. -/
def read_all_enforcer_data (tabs : List (String × List RawRec)) : DFrame :=
  let kept := tabs.filter (fun t => !skip_tab t.1)
  let frames := (kept.map (fun t => t.2)).filter (fun t => decide (t ≠ []))
  if frames = [] then { cols := EXPECTED_HEADERS, rows := [] }
  else { cols := EXPECTED_HEADERS ++ ["Month"], rows := frames.flatten.map load_rec_dash }

/-!  ## Grouping  -/

/-- Sum of `Quantity` over the rows of one category: one entry of
`dfv.groupby("Category")[...]["Quantity"].sum()`. -/
def category_total (rows : List RRow) (cat : PyStr) : ℤ :=
  ((rows.filter (fun r => decide (r.category = cat))).map (fun r => r.quantity)).sum

/-- `groupby("Category", as_index=False)["Quantity"].sum()`: one row per
distinct category with its total. -/
def group_sum_by_category (rows : List RRow) : List (PyStr × ℤ) :=
  ((rows.map (fun r => r.category)).dedup).map (fun c => (c, category_total rows c))

/-!  ## KPI calculations  -/

/-- `percent_change` (`pages/Reports Dashboard.py` lines 166-169): `None`
when the previous total is missing or zero, else
`((curr - prev) / prev) * 100.0`. -/
def percent_change (curr : ℚ) (prev : Option ℚ) : Option ℚ :=
  match prev with
  | none => none
  | some p => if p = 0 then none else some ((curr - p) / p * 100)

/-- The badge-rendering guard (lines 240-241 and 410-411): the badge is
rendered only when `percent_change` produced a value. -/
def kpi_badge_shown (v : Option ℚ) : Bool := v.isSome

/-- `span_days` (line 203): length of the selected daily window, in days
(dates as day ordinals). -/
def span_days (d1 d2 : ℤ) : ℤ := d2 - d1 + 1

/-- `prev_start` (line 204). -/
def prev_start (d1 d2 : ℤ) : ℤ := d1 - span_days d1 d2

/-- `prev_end` (line 205). -/
def prev_end (d1 : ℤ) : ℤ := d1 - 1

/-- `prev_month` (lines 361-365), on (year, month) pairs rather than the
`"YYYY-MM"` strings the source parses and reformats: January rolls over
to December of the previous year. -/
def prev_month (ym : ℤ × ℕ) : ℤ × ℕ :=
  if ym.2 = 1 then (ym.1 - 1, 12) else (ym.1, ym.2 - 1)

/-- The loop of lines 368-372: walk backward `n` months from `cur`,
collecting each one. -/
def prev_block_loop : ℕ → ℤ × ℕ → List (ℤ × ℕ)
  | 0, _ => []
  | n + 1, cur => cur :: prev_block_loop n (prev_month cur)

/-- `prev_block` (lines 366-373): the `k` months immediately before
`first` (the earliest selected month, `sel_sorted[0]`), in increasing
order. -/
def prev_block (first : ℤ × ℕ) (k : ℕ) : List (ℤ × ℕ) :=
  (prev_block_loop k (prev_month first)).reverse

/-- `effective_selection` (line 138): an empty multiselect means the full
roster. -/
def effective_selection (chosen : List String) : List String :=
  if chosen = [] then ENFORCERS else chosen

/-- `df[df["Enforcer"].isin(effective_selection)]` (line 139). -/
def filter_enforcers (rows : List RRow) (sel : List String) : List RRow :=
  rows.filter (fun r => decide (r.enforcer ∈ sel))

/-- `dfv["Enforcer"].nunique()` (lines 221 and 391). -/
def nunique_enforcers (rows : List RRow) : ℕ :=
  ((rows.map (fun r => r.enforcer)).dedup).length

/-- `pct_active` (lines 220-221 and 390-391). -/
def pct_active (dfv : List RRow) (sel : List String) : ℚ :=
  if sel.length = 0 then 0
  else 100 * ((nunique_enforcers dfv : ℚ) / (sel.length : ℚ))

/-- `date.today().replace(month=1, day=1)` (lines 224 and 394). -/
def year_start (today : SDate) : SDate := ⟨today.y, 1, 1⟩

/-- The row mask of lines 225 and 395: selected enforcer and date on or
after January 1 of the current year; a null date (`NaT`) compares false. -/
def ytd_pred (today : SDate) (sel : List String) (r : RRow) : Bool :=
  decide (r.enforcer ∈ sel) &&
    (match r.pdate with
     | some dt => dle (year_start today) dt
     | none => false)

/-- `ytd_total` (lines 223-226 and 393-396), including the redundant
empty-frame guard of line 226. -/
def ytd_total (today : SDate) (sel : List String) (base : List RRow) : ℤ :=
  let ytd_df := base.filter (ytd_pred today sel)
  if ytd_df = [] then 0 else (ytd_df.map (fun r => r.quantity)).sum

/-- The year-to-date total as claim C4 words it: additionally capped at
the end date of the currently filtered window, inclusive.  Stated from
the claim for comparison with `ytd_total`. -/
def ytd_claim_capped (today winEnd : SDate) (sel : List String) (base : List RRow) : ℤ :=
  ((base.filter (fun r => decide (r.enforcer ∈ sel) &&
      (match r.pdate with
       | some dt => dle (year_start today) dt && dle dt winEnd
       | none => false))).map (fun r => r.quantity)).sum

/-- The year-to-date total as the amended claim words it: quantity summed
over the base table's records whose enforcer is selected and whose
(parseable) date falls on or after January 1 of the reference year, with
no upper cutoff. -/
def ytd_spec_jan1 (today : SDate) (sel : List String) (base : List RRow) : ℤ :=
  (base.filterMap (fun r =>
    match r.pdate with
    | some dt =>
      if r.enforcer ∈ sel ∧ dle (year_start today) dt = true then some r.quantity else none
    | none => none)).sum

/-!  ## The entry collector  -/

/-- The fixed category/activity taxonomy (`dashboard.py` lines 119-145 and
the entry page lines 80-106). -/
def categories : List (String × List String) :=
  [("I. Issuance of Citation Tickets",
    ["No Tree-Cutting Permit",
     "Unregistered Chainsaw",
     "Violation of Plastics Ordinance",
     "Violation of Solid Waste Management Ordinance",
     "Open Dumping of Waste",
     "Violation of Tapat Ko, Linis Ko Program",
     "Violation of Anti-Littering Ordinance",
     "Violation of Open Burning Ordinance",
     "Other Environmental Ordinance Violations"]),
   ("II. Surveillance, Investigation, Monitoring, Documentation, and Inspection",
    ["Binangonan Kalinisan Patrol (BKP)",
     "Handling of Environmental Complaints",
     "Response to Environmental Incidents",
     "Delivery of Letters and Notices",
     "Inspection of MRFs, Composting Facilities, and Eco-Gardens"]),
   ("III. Information, Education, and Communication (IEC) Campaign",
    ["Dissemination of IEC Materials",
     "Assistance in Conducting IEC Campaign Activities"]),
   ("IV. Other Tasks",
    ["Other duties assigned by the MENRO or LGU"])]

/-- One row of a save submission: `[today, name, cat, act, qty, remark]`.
The quantity is a natural number: the counter state starts at zero, the
decrement clamps at zero and the number input has `min_value=0`. -/
structure SRow where
  date : String
  enforcer : String
  category : String
  activity : String
  quantity : ℕ
  remarks : String
deriving DecidableEq

/-- `rows_to_save` (entry page lines 108-159, `to_append` in
`dashboard.py` lines 147-167): one row per (category, activity) pair of
the taxonomy, in order, each carrying the render-time date and the
session-state quantity and remark for that activity. -/
def rows_to_save (today name : String) (qty : String → ℕ) (remark : String → String) :
    List SRow :=
  categories.flatMap (fun ca => ca.2.map (fun act =>
    { date := today, enforcer := name, category := ca.1, activity := act,
      quantity := qty act, remarks := remark act }))

/-- The (category, activity) pairs of the fixed taxonomy, in order. -/
def taxonomy_pairs : List (String × String) :=
  categories.flatMap (fun ca => ca.2.map (fun act => (ca.1, act)))

/-- The save action (entry page lines 164-165, `dashboard.py` lines
169-170): a single `append_rows` call appending every collected row to
the enforcer's sheet. -/
def save_entry (sheet : List SRow) (today name : String) (qty : String → ℕ)
    (remark : String → String) : List SRow :=
  sheet ++ rows_to_save today name qty remark

/-!  ## Concrete scenario data  -/

/-- The three records of end-to-end scenario 1 exactly as the claim words
them: quantities 2, 3, 5 on 2024-05-01, one canonical label and two
copies of the claim's variant label (which capitalizes "Of" besides its
whitespace changes). -/
def c1_spec_rows : List RawRec :=
  [{ date := Cell.text (("2024-05-01").toList), enforcer := "Enforcer 1",
     category := ("I. Issuance of Citation Tickets").toList,
     activity := "Open Dumping of Waste", quantity := Cell.num 2, remarks := "" },
   { date := Cell.text (("2024-05-01").toList), enforcer := "Enforcer 1",
     category := ("I. Issuance Of  Citation  Tickets ").toList,
     activity := "Open Dumping of Waste", quantity := Cell.num 3, remarks := "" },
   { date := Cell.text (("2024-05-01").toList), enforcer := "Enforcer 2",
     category := ("I. Issuance Of  Citation  Tickets ").toList,
     activity := "Open Dumping of Waste", quantity := Cell.num 5, remarks := "" }]

/-- Scenario 1 with the variant label differing from the canonical one in
whitespace only (lowercase "of"), as the amended claim requires. -/
def c1_fixed_rows : List RawRec :=
  [{ date := Cell.text (("2024-05-01").toList), enforcer := "Enforcer 1",
     category := ("I. Issuance of Citation Tickets").toList,
     activity := "Open Dumping of Waste", quantity := Cell.num 2, remarks := "" },
   { date := Cell.text (("2024-05-01").toList), enforcer := "Enforcer 1",
     category := ("I. Issuance of  Citation  Tickets ").toList,
     activity := "Open Dumping of Waste", quantity := Cell.num 3, remarks := "" },
   { date := Cell.text (("2024-05-01").toList), enforcer := "Enforcer 2",
     category := ("I. Issuance of  Citation  Tickets ").toList,
     activity := "Open Dumping of Waste", quantity := Cell.num 5, remarks := "" }]

/-- A base table for the C4 counterexample: two records of Enforcer 1, one
inside a filtered window ending 2024-05-01 and one after it. -/
def c4_base : List RRow :=
  [{ pdate := some ⟨2024, 5, 1⟩, month := some (2024, 5), enforcer := "Enforcer 1",
     category := CANON_I, categoryShort := category_short CANON_I,
     activity := "Open Dumping of Waste", quantity := 3, remarks := "" },
   { pdate := some ⟨2024, 6, 1⟩, month := some (2024, 6), enforcer := "Enforcer 1",
     category := CANON_I, categoryShort := category_short CANON_I,
     activity := "Open Dumping of Waste", quantity := 7, remarks := "" }]

/-- A filtered view with records from exactly two of the five enforcers,
for end-to-end scenario 4. -/
def c8_rows : List RRow :=
  [{ pdate := some ⟨2024, 5, 1⟩, month := some (2024, 5), enforcer := "Enforcer 1",
     category := CANON_I, categoryShort := category_short CANON_I,
     activity := "Open Dumping of Waste", quantity := 2, remarks := "" },
   { pdate := some ⟨2024, 5, 1⟩, month := some (2024, 5), enforcer := "Enforcer 1",
     category := CANON_IV, categoryShort := category_short CANON_IV,
     activity := "Other duties assigned by the MENRO or LGU", quantity := 1, remarks := "" },
   { pdate := some ⟨2024, 5, 2⟩, month := some (2024, 5), enforcer := "Enforcer 2",
     category := CANON_I, categoryShort := category_short CANON_I,
     activity := "Unregistered Chainsaw", quantity := 4, remarks := "" }]

/-!  ## Whitespace-normalization lemmas  -/

theorem isWsChar_space : isWsChar ' ' = true := by decide

theorem splitWsAux_token_facts :
    ∀ (l acc : List Char), (∀ c ∈ acc, isWsChar c = false) →
      ∀ t ∈ splitWsAux l acc, t ≠ [] ∧ ∀ c ∈ t, isWsChar c = false := by
  intro l
  induction l with
  | nil =>
    intro acc hacc t ht
    by_cases h : acc = []
    · simp [splitWsAux, h] at ht
    · simp only [splitWsAux, if_neg h, List.mem_singleton] at ht
      subst ht
      refine ⟨by simpa using h, ?_⟩
      intro c hc
      exact hacc c (List.mem_reverse.mp hc)
  | cons c cs ih =>
    intro acc hacc t ht
    by_cases hw : isWsChar c = true
    · by_cases h : acc = []
      · simp only [splitWsAux, hw, if_true, if_pos h] at ht
        exact ih [] (by simp) t ht
      · simp only [splitWsAux, hw, if_true, if_neg h, List.mem_cons] at ht
        rcases ht with ht | ht
        · subst ht
          exact ⟨by simpa using h, fun d hd => hacc d (List.mem_reverse.mp hd)⟩
        · exact ih [] (by simp) t ht
    · have hw' : isWsChar c = false := by simpa using hw
      simp only [splitWsAux, hw', if_false, Bool.false_eq_true] at ht
      refine ih (c :: acc) ?_ t ht
      intro d hd
      rcases List.mem_cons.mp hd with rfl | hd
      · exact hw'
      · exact hacc d hd

theorem splitWsAux_token_step :
    ∀ (t l acc : List Char), (∀ c ∈ t, isWsChar c = false) →
      splitWsAux (t ++ l) acc = splitWsAux l (t.reverse ++ acc) := by
  intro t
  induction t with
  | nil => intro l acc _; simp
  | cons c cs ih =>
    intro l acc h
    have hc : isWsChar c = false := h c (by simp)
    have hcs : ∀ d ∈ cs, isWsChar d = false := fun d hd => h d (by simp [hd])
    have step : splitWsAux (c :: (cs ++ l)) acc = splitWsAux (cs ++ l) (c :: acc) := by
      simp [splitWsAux, hc]
    calc splitWsAux ((c :: cs) ++ l) acc
        = splitWsAux (cs ++ l) (c :: acc) := step
      _ = splitWsAux l (cs.reverse ++ (c :: acc)) := ih l (c :: acc) hcs
      _ = splitWsAux l ((c :: cs).reverse ++ acc) := by
            simp [List.reverse_cons, List.append_assoc]

theorem splitWsAux_space (l acc : List Char) :
    splitWsAux (' ' :: l) acc =
      if acc = [] then splitWsAux l [] else acc.reverse :: splitWsAux l [] := by
  simp [splitWsAux, isWsChar_space]

theorem splitWs_joinSpace :
    ∀ ts : List (List Char),
      (∀ t ∈ ts, t ≠ [] ∧ ∀ c ∈ t, isWsChar c = false) →
      splitWs (joinSpace ts) = ts := by
  intro ts
  induction ts with
  | nil => intro _; simp [joinSpace, splitWs, splitWsAux]
  | cons t ts ih =>
    intro h
    rcases h t (by simp) with ⟨hne, hok⟩
    cases ts with
    | nil =>
      show splitWs (joinSpace [t]) = [t]
      have hj : joinSpace [t] = t := rfl
      rw [hj]
      unfold splitWs
      have ht : splitWsAux (t ++ []) [] = splitWsAux [] (t.reverse ++ []) :=
        splitWsAux_token_step t [] [] hok
      simp only [List.append_nil] at ht
      rw [ht]
      have hrev : t.reverse ≠ [] := by simpa using hne
      simp [splitWsAux, hrev]
    | cons t' ts' =>
      have hrest : ∀ u ∈ t' :: ts', u ≠ [] ∧ ∀ c ∈ u, isWsChar c = false :=
        fun u hu => h u (by simp [hu])
      show splitWs (joinSpace (t :: t' :: ts')) = t :: t' :: ts'
      have hj : joinSpace (t :: t' :: ts') = t ++ ' ' :: joinSpace (t' :: ts') := rfl
      rw [hj]
      unfold splitWs
      rw [splitWsAux_token_step t (' ' :: joinSpace (t' :: ts')) [] hok]
      rw [splitWsAux_space]
      have hrev : t.reverse ++ [] ≠ [] := by simpa using hne
      rw [if_neg hrev]
      have ihr : splitWsAux (joinSpace (t' :: ts')) [] = t' :: ts' := ih hrest
      simp [ihr]

theorem normalizeWs_idem (s : PyStr) : normalizeWs (normalizeWs s) = normalizeWs s := by
  unfold normalizeWs
  rw [splitWs_joinSpace (splitWs s) (splitWsAux_token_facts s [] (by simp))]

theorem startsWithP_comparable :
    ∀ (s p q : PyStr), startsWithP p s = true → startsWithP q s = true →
      startsWithP p q = true ∨ startsWithP q p = true := by
  intro s
  induction s with
  | nil =>
    intro p q hp hq
    cases p with
    | nil => exact Or.inl rfl
    | cons a as => simp [startsWithP] at hp
  | cons c cs ih =>
    intro p q hp hq
    cases p with
    | nil => exact Or.inl rfl
    | cons a as =>
      cases q with
      | nil => exact Or.inr rfl
      | cons b bs =>
        simp only [startsWithP, Bool.and_eq_true, decide_eq_true_eq] at hp hq
        rcases hp with ⟨rfl, hp⟩
        rcases hq with ⟨rfl, hq⟩
        rcases ih as bs hp hq with h | h
        · exact Or.inl (by simp [startsWithP, h])
        · exact Or.inr (by simp [startsWithP, h])

/-- If `p` and `q` are incomparable (no one starts with the other), a string
starting with `q` cannot also start with `p`. -/
theorem startsWithP_excl (p q t : PyStr)
    (hpq : startsWithP p q = false) (hqp : startsWithP q p = false)
    (hq : startsWithP q t = true) : startsWithP p t = false := by
  cases hb : startsWithP p t with
  | false => rfl
  | true =>
    rcases startsWithP_comparable t p q hb hq with h | h
    · rw [h] at hpq; cases hpq
    · rw [h] at hqp; cases hqp

/-!  ## Canonicalization: claims C5, C6, C1  -/

theorem canonicalize_category_eq (s : PyStr) :
    canonicalize_category s =
      (if startsWithP PRE_II (normalizeWs s) = true then CANON_II
       else if startsWithP PRE_III (normalizeWs s) = true then CANON_III
       else if startsWithP PRE_I (normalizeWs s) = true then CANON_I
       else if startsWithP PRE_IV (normalizeWs s) = true then CANON_IV
       else normalizeWs s) := rfl

/-- Claim C5 (confirmed): the Category Canonicalizer is idempotent - for
every string `x`, `canonicalize_category (canonicalize_category x) =
canonicalize_category x`; in particular an already-canonical label is
returned unchanged. -/
theorem C5_canonicalize_category_idem (s : PyStr) :
    canonicalize_category (canonicalize_category s) = canonicalize_category s := by
  by_cases h2 : startsWithP PRE_II (normalizeWs s) = true
  · have e : canonicalize_category s = CANON_II := by
      rw [canonicalize_category_eq, if_pos h2]
    rw [e]; decide
  · by_cases h3 : startsWithP PRE_III (normalizeWs s) = true
    · have e : canonicalize_category s = CANON_III := by
        rw [canonicalize_category_eq, if_neg h2, if_pos h3]
      rw [e]; decide
    · by_cases h1 : startsWithP PRE_I (normalizeWs s) = true
      · have e : canonicalize_category s = CANON_I := by
          rw [canonicalize_category_eq, if_neg h2, if_neg h3, if_pos h1]
        rw [e]; decide
      · by_cases h4 : startsWithP PRE_IV (normalizeWs s) = true
        · have e : canonicalize_category s = CANON_IV := by
            rw [canonicalize_category_eq, if_neg h2, if_neg h3, if_neg h1, if_pos h4]
          rw [e]; decide
        · have e : canonicalize_category s = normalizeWs s := by
            rw [canonicalize_category_eq, if_neg h2, if_neg h3, if_neg h1, if_neg h4]
          rw [e, canonicalize_category_eq, normalizeWs_idem, if_neg h2, if_neg h3,
            if_neg h1, if_neg h4]

/-- Claim C6 (counterexample): a passthrough label is not byte-for-byte
identical to the input - the canonicalizer returns the
whitespace-normalized string, so an unmatched label with doubled internal
or trailing whitespace comes back changed. -/
theorem C6_counterexample :
    canonicalize_category (("Some  Label ").toList) ≠ ("Some  Label ").toList := by
  decide

/-- Claim C6 (corrected): when no canonical prefix matches, the
canonicalizer returns the whitespace-normalized input (trimmed, internal
whitespace runs collapsed); it is byte-for-byte the original string
exactly when the input was already whitespace-normal. -/
theorem C6_passthrough_normalized (s : PyStr)
    (h2 : startsWithP PRE_II (normalizeWs s) = false)
    (h3 : startsWithP PRE_III (normalizeWs s) = false)
    (h1 : startsWithP PRE_I (normalizeWs s) = false)
    (h4 : startsWithP PRE_IV (normalizeWs s) = false) :
    canonicalize_category s = normalizeWs s ∧
      (normalizeWs s = s → canonicalize_category s = s) := by
  have e : canonicalize_category s = normalizeWs s := by
    rw [canonicalize_category_eq, if_neg (by simp [h2]), if_neg (by simp [h3]),
      if_neg (by simp [h1]), if_neg (by simp [h4])]
  exact ⟨e, fun hn => by rw [e, hn]⟩

theorem C6_witness :
    canonicalize_category (("Hello  World ").toList) =
      normalizeWs (("Hello  World ").toList) :=
  (C6_passthrough_normalized (("Hello  World ").toList)
    (by decide) (by decide) (by decide) (by decide)).1

/-- Claim C1 (counterexample): with the claim's own labels - the variant
`"I. Issuance Of  Citation  Tickets "` capitalizes "Of", and prefix
matching is case-sensitive - the three records do not merge, so the
load-time category total of the canonical label is 2, not 10. -/
theorem C1_counterexample :
    category_total (load_all [c1_spec_rows]).rows CANON_I ≠ 10 := by decide

/-- Claim C1 (corrected): with a variant differing from the canonical
label in whitespace only (trailing whitespace, internal double-spacing),
the three records of scenario 1 do merge under load-time
canonicalization into a single category totalling 10; and every label
whose whitespace-normalization starts with one of the four official
(case-exact) match targets maps to exactly that canonical category. -/
theorem C1_merge_and_stability :
    category_total (load_all [c1_fixed_rows]).rows CANON_I = 10 ∧
    ∀ s : PyStr,
      (startsWithP PRE_II (normalizeWs s) = true → canonicalize_category s = CANON_II) ∧
      (startsWithP PRE_III (normalizeWs s) = true → canonicalize_category s = CANON_III) ∧
      (startsWithP PRE_I (normalizeWs s) = true → canonicalize_category s = CANON_I) ∧
      (startsWithP PRE_IV (normalizeWs s) = true → canonicalize_category s = CANON_IV) := by
  constructor
  · decide
  · intro s
    refine ⟨?_, ?_, ?_, ?_⟩
    · intro h2
      rw [canonicalize_category_eq, if_pos h2]
    · intro h3
      have h2 := startsWithP_excl PRE_II PRE_III (normalizeWs s) (by decide) (by decide) h3
      rw [canonicalize_category_eq, if_neg (by simp [h2]), if_pos h3]
    · intro h1
      have h2 := startsWithP_excl PRE_II PRE_I (normalizeWs s) (by decide) (by decide) h1
      have h3 := startsWithP_excl PRE_III PRE_I (normalizeWs s) (by decide) (by decide) h1
      rw [canonicalize_category_eq, if_neg (by simp [h2]), if_neg (by simp [h3]), if_pos h1]
    · intro h4
      have h2 := startsWithP_excl PRE_II PRE_IV (normalizeWs s) (by decide) (by decide) h4
      have h3 := startsWithP_excl PRE_III PRE_IV (normalizeWs s) (by decide) (by decide) h4
      have h1 := startsWithP_excl PRE_I PRE_IV (normalizeWs s) (by decide) (by decide) h4
      rw [canonicalize_category_eq, if_neg (by simp [h2]), if_neg (by simp [h3]),
        if_neg (by simp [h1]), if_pos h4]

theorem C1_witness :
    canonicalize_category (("II. Surveillance  Patrols ").toList) = CANON_II ∧
    canonicalize_category (("III. Information, Education,  and more").toList) = CANON_III ∧
    canonicalize_category (("I. Issuance of Citation Tickets   (updated)").toList) = CANON_I ∧
    canonicalize_category (("IV. Other  Assignments").toList) = CANON_IV :=
  ⟨(C1_merge_and_stability.2 _).1 (by decide),
   (C1_merge_and_stability.2 _).2.1 (by decide),
   (C1_merge_and_stability.2 _).2.2.1 (by decide),
   (C1_merge_and_stability.2 _).2.2.2 (by decide)⟩

/-!  ## Period-over-period windows: claims C2, C3  -/

theorem prev_block_loop_eq (k : ℕ) :
    ∀ cur : ℤ × ℕ,
      prev_block_loop k cur = (List.range k).map (fun i => prev_month^[i] cur) := by
  induction k with
  | zero => intro cur; simp [prev_block_loop]
  | succ n ih =>
    intro cur
    have hf : (fun i => prev_month^[i] (prev_month cur)) =
        fun i => prev_month^[i + 1] cur := by
      funext i
      rw [Function.iterate_succ_apply]
    rw [prev_block_loop, ih (prev_month cur), hf, List.range_succ_eq_map]
    simp [Function.comp_def]

/-- Claim C2 (confirmed): the preceding comparison window has the same
length as the filtered window and sits immediately before it - for a
daily range it is the `d2 - d1 + 1` days ending the day before `d1`; for
`k` selected months it is the `k` months walked backward one at a time
from the month before the earliest selected one, with January rolling
over to December of the previous year; and a current total of 20 against
a preceding total of 10 gives a change of +100.0%. -/
theorem C2_preceding_window :
    (∀ d1 d2 : ℤ, prev_end d1 = d1 - 1 ∧
       prev_end d1 - prev_start d1 d2 + 1 = span_days d1 d2 ∧
       prev_start d1 d2 = d1 - span_days d1 d2) ∧
    (∀ y : ℤ, prev_month (y, 1) = (y - 1, 12)) ∧
    (∀ (y : ℤ) (m : ℕ), prev_month (y, m + 2) = (y, m + 1)) ∧
    (∀ (first : ℤ × ℕ) (k : ℕ),
       prev_block first k =
         ((List.range k).map (fun i => prev_month^[i + 1] first)).reverse) ∧
    percent_change 20 (some 10) = some 100 := by
  refine ⟨?_, ?_, ?_, ?_, ?_⟩
  · intro d1 d2
    refine ⟨rfl, ?_, rfl⟩
    unfold prev_end prev_start span_days
    ring
  · intro y
    simp [prev_month]
  · intro y m
    simp [prev_month]
  · intro first k
    have hf : (fun i => prev_month^[i] (prev_month first)) =
        fun i => prev_month^[i + 1] first := by
      funext i
      rw [Function.iterate_succ_apply]
    rw [prev_block, prev_block_loop_eq, hf]
  · norm_num [percent_change]

/-- Claim C3 (confirmed): the percent-change computation is null - and the
badge is not rendered - exactly when the preceding total is missing or
zero; otherwise it equals `100 × (current − previous) / previous`.  It is
total (never a division exception, never an infinity). -/
theorem C3_percent_change_definedness (curr : ℚ) (prev : Option ℚ) :
    (percent_change curr prev = none ↔ prev = none ∨ prev = some 0) ∧
    (kpi_badge_shown (percent_change curr prev) = false ↔
      prev = none ∨ prev = some 0) ∧
    (∀ p : ℚ, p ≠ 0 → percent_change curr (some p) = some (100 * (curr - p) / p)) := by
  refine ⟨?_, ?_, ?_⟩
  · cases prev with
    | none => simp [percent_change]
    | some p =>
      by_cases hp : p = 0
      · subst hp; simp [percent_change]
      · simp [percent_change, hp]
  · cases prev with
    | none => simp [percent_change, kpi_badge_shown]
    | some p =>
      by_cases hp : p = 0
      · subst hp; simp [percent_change, kpi_badge_shown]
      · simp [percent_change, kpi_badge_shown, hp]
  · intro p hp
    simp only [percent_change, if_neg hp, Option.some.injEq]
    ring

theorem C3_witness :
    percent_change 20 (some 10) = some (100 * (20 - 10) / 10) :=
  (C3_percent_change_definedness 20 (some 10)).2.2 10 (by norm_num)

/-!  ## The year-to-date KPI: claim C4  -/

theorem filter_map_sum_eq (base : List RRow) (p : RRow → Bool) (f : RRow → ℤ) :
    ((base.filter p).map f).sum =
      (base.filterMap (fun r => if p r then some (f r) else none)).sum := by
  induction base with
  | nil => simp
  | cons r rs ih =>
    by_cases h : p r
    · simp [List.filter_cons, h, List.filterMap_cons, ih]
    · simp [List.filter_cons, h, List.filterMap_cons, ih]

/-- Claim C4 (counterexample): the code's year-to-date total counts a
record dated after the filtered window's end (window ending 2024-05-01,
record on 2024-06-01), so it differs from the claim's capped sum. -/
theorem C4_counterexample :
    ytd_total ⟨2024, 6, 15⟩ ["Enforcer 1"] c4_base ≠
      ytd_claim_capped ⟨2024, 6, 15⟩ ⟨2024, 5, 1⟩ ["Enforcer 1"] c4_base := by
  decide

/-- Claim C4 (corrected): the year-to-date KPI sums quantity over the base
table restricted to the selected enforcers and to (parseable) dates from
January 1 of the reference year onward, with no upper cutoff - records
dated after the filtered window's end date are included, not excluded. -/
theorem C4_ytd_no_upper_bound (today : SDate) (sel : List String) (base : List RRow) :
    ytd_total today sel base = ytd_spec_jan1 today sel base := by
  have e : ytd_total today sel base =
      (if base.filter (ytd_pred today sel) = [] then 0
       else ((base.filter (ytd_pred today sel)).map (fun r => r.quantity)).sum) := rfl
  have hfun : (fun r => if ytd_pred today sel r then some r.quantity else none) =
      (fun r : RRow =>
        match r.pdate with
        | some dt =>
          if r.enforcer ∈ sel ∧ dle (year_start today) dt = true then some r.quantity
          else none
        | none => none) := by
    funext r
    cases hd : r.pdate with
    | none => simp [ytd_pred, hd]
    | some dt =>
      by_cases h1 : r.enforcer ∈ sel
      · by_cases hdl : dle (year_start today) dt = true
        · simp [ytd_pred, hd, h1, hdl]
        · simp [ytd_pred, hd, h1, hdl]
      · simp [ytd_pred, hd, h1]
  have main : ((base.filter (ytd_pred today sel)).map (fun r => r.quantity)).sum =
      ytd_spec_jan1 today sel base := by
    rw [filter_map_sum_eq, hfun]
    rfl
  by_cases h : base.filter (ytd_pred today sel) = []
  · rw [e, if_pos h, ← main, h]
    simp
  · rw [e, if_neg h, main]

/-!  ## Quantity coercion: claim C7  -/

theorem digitChar_isDigit (d : ℕ) (hd : d < 10) : isDigitCh (digitChar d) = true := by
  interval_cases d <;> decide

theorem digitVal_digitChar (d : ℕ) (hd : d < 10) : digitVal (digitChar d) = d := by
  interval_cases d <;> decide

theorem parseNatAux_append (l₁ l₂ : List Char) :
    ∀ acc, parseNatAux (l₁ ++ l₂) acc =
      (parseNatAux l₁ acc).bind (fun a => parseNatAux l₂ a) := by
  induction l₁ with
  | nil => intro acc; simp [parseNatAux]
  | cons c cs ih =>
    intro acc
    by_cases h : isDigitCh c = true
    · simp [parseNatAux, h, ih]
    · simp [parseNatAux, h]

theorem natRepr_ne_nil (n : ℕ) : natRepr n ≠ [] := by
  rw [natRepr]
  split
  · simp
  · simp

theorem natRepr_all_digits (n : ℕ) : ∀ c ∈ natRepr n, isDigitCh c = true := by
  induction n using Nat.strong_induction_on with
  | _ n ih =>
    by_cases h : n < 10
    · rw [natRepr, dif_pos h]
      intro c hc
      rw [List.mem_singleton] at hc
      subst hc
      exact digitChar_isDigit n h
    · rw [natRepr, dif_neg h]
      intro c hc
      rcases List.mem_append.mp hc with hc | hc
      · exact ih (n / 10) (by omega) c hc
      · rw [List.mem_singleton] at hc
        subst hc
        exact digitChar_isDigit _ (Nat.mod_lt _ (by omega))

theorem natRepr_parse (n : ℕ) :
    ∀ acc, parseNatAux (natRepr n) acc = some (acc * 10 ^ (natRepr n).length + n) := by
  induction n using Nat.strong_induction_on with
  | _ n ih =>
    intro acc
    by_cases h : n < 10
    · rw [natRepr, dif_pos h]
      simp [parseNatAux, digitChar_isDigit n h, digitVal_digitChar n h]
    · rw [natRepr, dif_neg h, parseNatAux_append]
      rw [ih (n / 10) (by omega) acc]
      have hm : n % 10 < 10 := Nat.mod_lt _ (by omega)
      simp only [Option.some_bind, Option.bind_some, parseNatAux, digitChar_isDigit _ hm,
        if_true, digitVal_digitChar _ hm, List.length_append, List.length_singleton,
        Option.some.injEq]
      have hdm : n / 10 * 10 + n % 10 = n := by omega
      calc (acc * 10 ^ (natRepr (n / 10)).length + n / 10) * 10 + n % 10
          = acc * (10 ^ (natRepr (n / 10)).length * 10) + (n / 10 * 10 + n % 10) := by
            ring
        _ = acc * 10 ^ ((natRepr (n / 10)).length + 1) + n := by
            rw [hdm, pow_succ]

theorem truncZ_natCast (n : ℕ) : truncZ (n : ℚ) = n := by
  unfold truncZ
  rw [Rat.num_natCast, Rat.den_natCast]
  simp

theorem truncZ_nonneg (q : ℚ) (h : 0 ≤ q) : 0 ≤ truncZ q := by
  unfold truncZ
  rw [if_pos (Rat.num_nonneg.mpr h)]
  exact Int.natCast_nonneg _

/-- Claim C7 (counterexample): a stored `"-5"` coerces to the integer −5,
so the resulting Quantity column is not always non-negative. -/
theorem C7_counterexample :
    coerce_quantity (Cell.text (("-5").toList)) = -5 ∧
      coerce_quantity (Cell.text (("-5").toList)) < 0 := by
  decide

/-- Claim C7 (corrected): at aggregation time every quantity cell is
coerced to an integer - decimal digit strings parse to their value,
unparseable cells become 0, and the result is non-negative whenever the
stored value is a non-negative number - but a stored negative numeric
stays negative, so the column is not unconditionally non-negative. -/
theorem C7_quantity_coercion :
    (∀ n : ℕ, coerce_quantity (Cell.text (natRepr n)) = (n : ℤ)) ∧
    (∀ s : PyStr, pyToNumeric (Cell.text s) = none → coerce_quantity (Cell.text s) = 0) ∧
    (∀ (c : Cell) (q : ℚ), pyToNumeric c = some q → 0 ≤ q → 0 ≤ coerce_quantity c) := by
  refine ⟨?_, ?_, ?_⟩
  · intro n
    obtain ⟨c, rest, hc⟩ := List.exists_cons_of_ne_nil (natRepr_ne_nil n)
    have hdig : isDigitCh c = true := natRepr_all_digits n c (by rw [hc]; simp)
    have hcm : ¬ c = '-' := by
      intro he
      rw [he] at hdig
      exact absurd hdig (by decide)
    have hcp : ¬ c = '+' := by
      intro he
      rw [he] at hdig
      exact absurd hdig (by decide)
    have hnum : pyToNumeric (Cell.text (natRepr n)) = some (n : ℚ) := by
      rw [hc]
      show (if c = '-' then (parseNatOpt rest).map (fun k => -(k : ℚ))
            else if c = '+' then (parseNatOpt rest).map (fun k => (k : ℚ))
            else (parseNatOpt (c :: rest)).map (fun k => (k : ℚ))) = some (n : ℚ)
      rw [if_neg hcm, if_neg hcp, ← hc]
      rw [parseNatOpt, if_neg (natRepr_ne_nil n), natRepr_parse n 0]
      simp
    unfold coerce_quantity
    rw [hnum]
    exact truncZ_natCast n
  · intro s h
    unfold coerce_quantity
    rw [h]
  · intro c q hq hge
    unfold coerce_quantity
    rw [hq]
    exact truncZ_nonneg q hge

theorem C7_witness :
    coerce_quantity (Cell.text (("x7").toList)) = 0 ∧
      0 ≤ coerce_quantity (Cell.num 2) :=
  ⟨C7_quantity_coercion.2.1 (("x7").toList) (by decide),
   C7_quantity_coercion.2.2 (Cell.num 2) 2 rfl (by norm_num)⟩

/-!  ## Percent active: claim C8  -/

/-- Claim C8 (confirmed): with an empty multiselect the selection falls
back to the full five-enforcer roster; for every (duplicate-free)
selection the percent-active KPI `100 × distinct-active / selected` lies
in [0, 100] on any further-filtered view; and a roster of five with two
distinct active enforcers yields exactly 40. -/
theorem C8_pct_active :
    (effective_selection [] = ENFORCERS) ∧
    (∀ (chosen : List String) (rows : List RRow) (p : RRow → Bool),
       chosen.Nodup →
       0 ≤ pct_active ((filter_enforcers rows (effective_selection chosen)).filter p)
           (effective_selection chosen) ∧
       pct_active ((filter_enforcers rows (effective_selection chosen)).filter p)
           (effective_selection chosen) ≤ 100) ∧
    pct_active (filter_enforcers c8_rows (effective_selection []))
        (effective_selection []) = 40 := by
  refine ⟨rfl, ?_, ?_⟩
  case refine_2 =>
    have h1 : nunique_enforcers (filter_enforcers c8_rows (effective_selection [])) = 2 := by
      decide
    have h2 : (effective_selection []).length = 5 := rfl
    unfold pct_active
    rw [h1, h2]
    norm_num
  intro chosen rows p hnd
  set sel := effective_selection chosen with hsel
  have hselnd : sel.Nodup := by
    rw [hsel]
    unfold effective_selection
    split
    · decide
    · exact hnd
  have hpos : 0 < sel.length := by
    rw [hsel]
    unfold effective_selection
    split
    · decide
    · rename_i h
      exact List.length_pos.mpr h
  set dfv := (filter_enforcers rows sel).filter p with hdfv
  have hsub : (dfv.map (fun r => r.enforcer)).dedup ⊆ sel := by
    intro x hx
    have hx' : x ∈ dfv.map (fun r => r.enforcer) := List.mem_dedup.mp hx
    rcases List.mem_map.mp hx' with ⟨r, hr, rfl⟩
    have hr1 : r ∈ filter_enforcers rows sel := List.mem_of_mem_filter hr
    unfold filter_enforcers at hr1
    exact of_decide_eq_true (List.mem_filter.mp hr1).2
  have hlen : nunique_enforcers dfv ≤ sel.length :=
    ((List.nodup_dedup _).subperm hsub).length_le
  unfold pct_active
  rw [if_neg (by omega)]
  have hq : (0 : ℚ) < (sel.length : ℚ) := by exact_mod_cast hpos
  constructor
  · positivity
  · have h1 : (nunique_enforcers dfv : ℚ) / (sel.length : ℚ) ≤ 1 := by
      rw [div_le_one hq]
      exact_mod_cast hlen
    calc 100 * ((nunique_enforcers dfv : ℚ) / (sel.length : ℚ))
        ≤ 100 * 1 := by
          exact mul_le_mul_of_nonneg_left h1 (by norm_num)
      _ = 100 := by norm_num

theorem C8_witness :
    0 ≤ pct_active ((filter_enforcers c8_rows (effective_selection ["Enforcer 2"])).filter
        (fun _ => true)) (effective_selection ["Enforcer 2"]) ∧
      pct_active ((filter_enforcers c8_rows (effective_selection ["Enforcer 2"])).filter
        (fun _ => true)) (effective_selection ["Enforcer 2"]) ≤ 100 :=
  C8_pct_active.2.1 ["Enforcer 2"] c8_rows (fun _ => true) (by decide)

/-!  ## Empty-input loading: claim C9  -/

/-- Claim C9 (counterexample): with no records at all, the Reports page's
loader does not return exactly the six expected columns - the transform
block still runs on the empty frame and appends the derived `Month` and
`CategoryShort` columns. -/
theorem C9_counterexample : (load_all []).cols ≠ EXPECTED_HEADERS := by decide

/-- Claim C9 (corrected): with no records in any enforcer table, both
loaders return a zero-row table whose columns include the six expected
ones, never an error: `read_all_enforcer_data` returns early with exactly
the six columns, while the Reports page's `load_all` additionally appends
the derived `Month` and `CategoryShort` columns; grouping the zero-row
table yields zero groups rather than failing. -/
theorem C9_empty_load :
    (∀ tables : List (List RawRec), (∀ t ∈ tables, t = []) →
       (load_all tables).rows = [] ∧
       (load_all tables).cols = EXPECTED_HEADERS ++ ["Month", "CategoryShort"] ∧
       group_sum_by_category (load_all tables).rows = []) ∧
    (∀ tabs : List (String × List RawRec), (∀ t ∈ tabs, t.2 = []) →
       read_all_enforcer_data tabs = ⟨EXPECTED_HEADERS, []⟩) := by
  constructor
  · intro tables h
    have hf : tables.filter (fun t => decide (t ≠ [])) = [] := by
      rw [List.filter_eq_nil_iff]
      intro a ha
      simp [h a ha]
    have e : load_all tables =
        ⟨EXPECTED_HEADERS ++ ["Month", "CategoryShort"], []⟩ := by
      unfold load_all
      rw [hf]
      simp
    rw [e]
    exact ⟨rfl, rfl, rfl⟩
  · intro tabs h
    have hf : ((tabs.filter (fun t => !skip_tab t.1)).map (fun t => t.2)).filter
        (fun t => decide (t ≠ [])) = [] := by
      rw [List.filter_eq_nil_iff]
      intro a ha
      rcases List.mem_map.mp ha with ⟨x, hx, rfl⟩
      simp [h x (List.mem_of_mem_filter hx)]
    simp only [read_all_enforcer_data]
    rw [hf]
    simp

theorem C9_witness :
    read_all_enforcer_data [("Enforcer 1", [])] = ⟨EXPECTED_HEADERS, []⟩ ∧
      (load_all [[], []]).rows = [] :=
  ⟨C9_empty_load.2 [("Enforcer 1", [])] (by decide),
   (C9_empty_load.1 [[], []] (by decide)).1⟩

/-!  ## The entry collector's save: claim C10  -/

/-- Claim C10 (confirmed): every save submission consists of exactly one
row per (category, activity) pair of the fixed 17-entry taxonomy, in
taxonomy order - rows with zero quantity included, since the quantity
function is arbitrary - every row's date field is the render-time date,
and the save action appends all of them to the sheet in one call. -/
theorem C10_rows_to_save (today name : String) (qty : String → ℕ)
    (remark : String → String) :
    (rows_to_save today name qty remark).length = 17 ∧
    (rows_to_save today name qty remark).map (fun r => (r.category, r.activity)) =
      taxonomy_pairs ∧
    (rows_to_save today name qty remark).map (fun r => r.date) =
      List.replicate 17 today ∧
    (rows_to_save today name qty remark).map (fun r => r.quantity) =
      taxonomy_pairs.map (fun pa => qty pa.2) ∧
    ∀ sheet : List SRow,
      save_entry sheet today name qty remark = sheet ++ rows_to_save today name qty remark ∧
      (save_entry sheet today name qty remark).length = sheet.length + 17 := by
  refine ⟨rfl, rfl, rfl, rfl, ?_⟩
  intro sheet
  refine ⟨rfl, ?_⟩
  show (sheet ++ rows_to_save today name qty remark).length = sheet.length + 17
  rw [List.length_append]
  have hlen : (rows_to_save today name qty remark).length = 17 := rfl
  omega

end MENRO
